import Mathlib

/-!
Verification development for multipass's image and blueprint catalog
resolution engine.

The first half embeds `src/src/daemon/ubuntu_image_host.cpp`
(`UbuntuVMImageHost`): manifests, queries, alias and hash-prefix
resolution, URL resolution of image locations, and the error policy of
`all_info_for` / `info_for` / `info_for_full_hash_impl` /
`all_images_for`.

The second half models the Blueprint provider
(`DefaultVMBlueprintProvider`), whose implementation file is not part of
this tree; it is modelled from the spec and from its tests in
`src/tests/test_blueprint_provider.cpp`.
-/

deriving instance DecidableEq for Except

/-- Embeds `QString::startsWith`: structural prefix test on the character
data (executable by kernel reduction, unlike `String.startsWith`). -/
def starts_with (s pre : String) : Bool := pre.data.isPrefixOf s.data

/-- Embeds `multipass::VMImageInfo` (all fields of the C++ struct, as used by
`ubuntu_image_host.cpp`). `id` is the content-id. -/
structure VMImageInfo where
  aliases : List String
  os : String
  release : String
  release_title : String
  supported : Bool
  image_location : String
  kernel_location : String
  initrd_location : String
  id : String
  stream_location : String
  version : String
  size : Int
  verify : Bool
deriving DecidableEq, Repr

/-- Embeds the fields of `multipass::Query` that `ubuntu_image_host.cpp` and
the Blueprint provider read: `release`, `remote_name`, `allow_unsupported`.
The remaining C++ fields (`name`, `persistent`, `query_type`) are not
consulted by the embedded code paths. -/
structure Query where
  release : String
  remote_name : String
  allow_unsupported : Bool
deriving DecidableEq, Repr

/-- Embeds `multipass::SimpleStreamsManifest`: the ordered `products` list and
the alias index `image_records` (a map from alias key to record; embedded as
an association list, looked up first-match like `QMap::find`). -/
structure SimpleStreamsManifest where
  products : List VMImageInfo
  image_records : List (String × VMImageInfo)
deriving DecidableEq, Repr

/-- Errors thrown by the embedded `UbuntuVMImageHost` code paths, one
constructor per C++ exception site. -/
inductive HostError where
  /-- `mp::UnsupportedRemoteException`, raised by `check_remote_is_supported`. -/
  | unsupportedRemote
  /-- `UnsupportedAliasException`, raised by `check_alias_is_supported`. -/
  | unsupportedAliasKey (key : String)
  /-- `mp::UnsupportedImageException(query.release)` (ubuntu_image_host.cpp:139). -/
  | unsupportedImage (release : String)
  /-- `std::runtime_error("Too many images matching ...")` (ubuntu_image_host.cpp:94). -/
  | tooManyImages (release : String)
  /-- `std::runtime_error("Remote ... is unknown or unreachable.")` (ubuntu_image_host.cpp:278). -/
  | remoteUnknown (remote : String)
  /-- `std::runtime_error("Unable to find an image matching hash ...")` (ubuntu_image_host.cpp:181). -/
  | imageHashNotFound (hash : String)
  /-- `std::runtime_error("Unable to find images for remote ...")` (ubuntu_image_host.cpp:199). -/
  | noImagesForRemote (remote : String)
deriving DecidableEq, Repr

/-- State of a `UbuntuVMImageHost`: the configured `(name, base URL)` remotes
and the cached `(remote_name, manifest)` list. `unsupported_remotes` and
`unsupported_alias_keys` model the platform-driven checks
`check_remote_is_supported` / `check_alias_is_supported` of the common host
base class (declared outside this tree): the listed remotes, and the listed
`(alias key, query remote_name)` pairs, make those checks throw. -/
structure UbuntuVMImageHost where
  remotes : List (String × String)
  manifests : List (String × SimpleStreamsManifest)
  unsupported_remotes : List String
  unsupported_alias_keys : List (String × String)
deriving DecidableEq, Repr

/-- Modelled from the spec: the `release_remote` constant of
`ubuntu_image_host.h` (header not in this tree); the spec fixes the default
search order to "release" then "daily". -/
def release_remote : String := "release"

/-- Modelled from the spec: the `daily_remote` constant of
`ubuntu_image_host.h` (header not in this tree). -/
def daily_remote : String := "daily"

/-- Embeds `key_from` (ubuntu_image_host.cpp:67-73): empty search string
becomes "default". -/
def key_from (search_string : String) : String :=
  if search_string = "" then "default" else search_string

/-- Embeds `with_location_fully_resolved` (ubuntu_image_host.cpp:50-65):
prefixes the host URL onto the image, kernel and initrd locations, all other
fields unchanged. -/
def with_location_fully_resolved (host_url : String) (info : VMImageInfo) : VMImageInfo :=
  { info with
    image_location := host_url ++ info.image_location
    kernel_location := host_url ++ info.kernel_location
    initrd_location := host_url ++ info.initrd_location }

namespace UbuntuVMImageHost

/-- Embeds `UbuntuVMImageHost::remote_url_from` (ubuntu_image_host.cpp:295-307):
first configured remote of that name, empty string if none. -/
def remote_url_from (h : UbuntuVMImageHost) (remote_name : String) : String :=
  match h.remotes.lookup remote_name with
  | some url => url
  | none => ""

/-- Embeds `UbuntuVMImageHost::manifest_from` (ubuntu_image_host.cpp:266-281):
`check_remote_is_supported` may throw `UnsupportedRemoteException`
(modelled by membership in `unsupported_remotes`); then the cached manifest
is looked up, a miss throwing the "unknown or unreachable" error. The
`update_manifests` cache refresh it also performs does not change which
manifest is returned and is modelled in the Catalog Cache section. -/
def manifest_from (h : UbuntuVMImageHost) (remote : String) :
    Except HostError SimpleStreamsManifest :=
  if remote ∈ h.unsupported_remotes then
    .error HostError.unsupportedRemote
  else
    match h.manifests.lookup remote with
    | some m => .ok m
    | none => .error (HostError.remoteUnknown remote)

/-- Embeds `UbuntuVMImageHost::match_alias` (ubuntu_image_host.cpp:283-293):
lookup in the manifest's alias index. -/
def match_alias (key : String) (manifest : SimpleStreamsManifest) : Option VMImageInfo :=
  manifest.image_records.lookup key

/-- Embeds the hash-prefix scan of `all_info_for`
(ubuntu_image_host.cpp:146-159): every product whose content-id starts with
the key, passing the supported filter, deduplicated by content-id via the
`found_hashes` set, resolved against the remote's URL at push time. -/
def hash_scan (url key : String) (allow_uns : Bool) (remote_name : String) :
    List VMImageInfo → List String → List (String × VMImageInfo)
  | [], _ => []
  | entry :: rest, found_hashes =>
    if starts_with entry.id key && (entry.supported || allow_uns)
        && !(found_hashes.contains entry.id) then
      (remote_name, with_location_fully_resolved url entry)
        :: hash_scan url key allow_uns remote_name rest (entry.id :: found_hashes)
    else
      hash_scan url key allow_uns remote_name rest found_hashes

/-- Embeds the per-remote body of the `all_info_for` loop after the manifest
is obtained (ubuntu_image_host.cpp:134-160): alias match first (unsupported
alias hit without `allow_unsupported` throws `UnsupportedImageException`),
otherwise the hash-prefix scan. -/
def matches_in_remote (h : UbuntuVMImageHost) (q : Query) (key : String)
    (remote_name : String) (manifest : SimpleStreamsManifest) :
    Except HostError (List (String × VMImageInfo)) :=
  match match_alias key manifest with
  | some info =>
    if !info.supported && !q.allow_unsupported then
      .error (HostError.unsupportedImage q.release)
    else
      .ok [(remote_name, with_location_fully_resolved (remote_url_from h remote_name) info)]
  | none =>
    .ok (hash_scan (remote_url_from h remote_name) key q.allow_unsupported remote_name
      manifest.products [])

/-- Embeds the remote loop of `all_info_for` (ubuntu_image_host.cpp:120-161):
an `UnsupportedRemoteException` from `manifest_from` is swallowed (remote
skipped) when the query's remote name is empty, re-thrown otherwise; any
other error propagates; matches accumulate in remote order. -/
def search_remotes (h : UbuntuVMImageHost) (q : Query) (key : String) :
    List String → Except HostError (List (String × VMImageInfo))
  | [] => .ok []
  | remote_name :: rest =>
    match manifest_from h remote_name with
    | .error e =>
      if e = HostError.unsupportedRemote ∧ q.remote_name = "" then
        search_remotes h q key rest
      else
        .error e
    | .ok manifest =>
      match matches_in_remote h q key remote_name manifest with
      | .error e => .error e
      | .ok imgs =>
        match search_remotes h q key rest with
        | .error e => .error e
        | .ok more => .ok (imgs ++ more)

/-- Embeds the remote search list of `all_info_for`
(ubuntu_image_host.cpp:105-114): the pinned remote alone, else release then
daily. -/
def remotes_to_search (q : Query) : List String :=
  if q.remote_name ≠ "" then [q.remote_name] else [release_remote, daily_remote]

/-- Embeds `UbuntuVMImageHost::all_info_for` (ubuntu_image_host.cpp:100-164). -/
def all_info_for (h : UbuntuVMImageHost) (q : Query) :
    Except HostError (List (String × VMImageInfo)) :=
  let key := key_from q.release
  if (key, q.remote_name) ∈ h.unsupported_alias_keys then
    .error (HostError.unsupportedAliasKey key)
  else
    search_remotes h q key (remotes_to_search q)

/-- Embeds `UbuntuVMImageHost::info_for` (ubuntu_image_host.cpp:82-98): empty
result is `nullopt`; with more than one match, if the first match's id starts
with the key and differs from it, the "Too many images matching" error is
thrown; otherwise the first match is returned. -/
def info_for (h : UbuntuVMImageHost) (q : Query) : Except HostError (Option VMImageInfo) :=
  match all_info_for h q with
  | .error e => .error e
  | .ok [] => .ok none
  | .ok (first :: rest) =>
    let key := key_from q.release
    if 0 < rest.length ∧ key ≠ first.2.id ∧ starts_with first.2.id key = true then
      .error (HostError.tooManyImages q.release)
    else
      .ok (some first.2)

/-- Embeds `UbuntuVMImageHost::info_for_full_hash_impl`
(ubuntu_image_host.cpp:166-182): linear scan of every cached manifest's
products for an exact content-id match, resolved at return; not-found error
otherwise. -/
def find_full_hash (h : UbuntuVMImageHost) (full_hash : String) :
    List (String × SimpleStreamsManifest) → Option VMImageInfo
  | [] => none
  | (remote_name, m) :: rest =>
    match m.products.find? (fun p => p.id == full_hash) with
    | some p => some (with_location_fully_resolved (remote_url_from h remote_name) p)
    | none => find_full_hash h full_hash rest

/-- Embeds `UbuntuVMImageHost::info_for_full_hash_impl`
(ubuntu_image_host.cpp:166-182). -/
def info_for_full_hash_impl (h : UbuntuVMImageHost) (full_hash : String) :
    Except HostError VMImageInfo :=
  match find_full_hash h full_hash h.manifests with
  | some info => .ok info
  | none => .error (HostError.imageHashNotFound full_hash)

/-- Models `check_all_aliases_are_supported` of the common host base class
(declared outside this tree): every alias of the entry must pass the platform
alias check for that remote. -/
def check_all_aliases_are_supported (h : UbuntuVMImageHost) (aliases : List String)
    (remote_name : String) : Bool :=
  aliases.all (fun a => !(h.unsupported_alias_keys.contains (a, remote_name)))

/-- Embeds `UbuntuVMImageHost::all_images_for` (ubuntu_image_host.cpp:184-202):
every product of the remote's manifest passing the supported and alias
filters, resolved; an empty result is an error. -/
def all_images_for (h : UbuntuVMImageHost) (remote_name : String)
    (allow_unsupported : Bool) : Except HostError (List VMImageInfo) :=
  match manifest_from h remote_name with
  | .error e => .error e
  | .ok manifest =>
    let images := manifest.products.filterMap (fun entry =>
      if (entry.supported || allow_unsupported)
          && check_all_aliases_are_supported h entry.aliases remote_name then
        some (with_location_fully_resolved (remote_url_from h remote_name) entry)
      else
        none)
    if images.isEmpty then
      .error (HostError.noImagesForRemote remote_name)
    else
      .ok images

end UbuntuVMImageHost

/-!
Blueprint provider. The implementation file
(`default_vm_blueprint_provider.cpp`) is not part of this tree; only its
tests (`src/tests/test_blueprint_provider.cpp`) are. The definitions below
are modelled from the spec (sections 4.1, 4.3, 4.4, 7) and pinned, where the
two differ, by the behaviour the tests assert.
-/

/-- Errors thrown by the Blueprint provider, one constructor per exception
kind distinguished by the spec and the tests. -/
inductive BlueprintError where
  /-- `std::out_of_range`: lookup-miss for an unknown Blueprint name. -/
  | outOfRange
  /-- `mp::InvalidBlueprintException` with its message. -/
  | invalidBlueprint (msg : String)
  /-- `mp::IncompatibleBlueprintException`, whose message is the Blueprint name. -/
  | incompatibleBlueprint (name : String)
  /-- `mp::BlueprintMinimumException`, naming the field, the supplied value
  and the minimum. -/
  | blueprintMinimum (field : String) (supplied minimum : Nat)
deriving DecidableEq, Repr

/-- The fields of `multipass::VirtualMachineDescription` read and written by
the Blueprint provider. Following the C++ defaults used by the tests, a zero
`num_cores` / `mem_size` / `disk_space` means "unset by the caller". -/
structure VirtualMachineDescription where
  num_cores : Nat
  mem_size : Nat
  disk_space : Nat
  vendor_data_config : Option String
deriving DecidableEq, Repr

/-- Modelled from the spec: the image reference of a Blueprint document
("alias, release, or URL with scheme http/https/file"), or no image at all. -/
inductive ImageRef where
  | noImage
  | aliasRef (release remote : String)
  | urlRef (scheme rest : String)
deriving DecidableEq, Repr

/-- Modelled from the spec: one parsed Blueprint document.
`validation_error` is `some msg` when the document fails validation (missing
or non-coercible required keys), `msg` being the `InvalidBlueprintException`
message; `runs_on` is the optional architecture allow-list. -/
structure BlueprintDoc where
  validation_error : Option String
  runs_on : Option (List String)
  min_cpus : Option Nat
  min_mem : Option Nat
  min_disk : Option Nat
  image_ref : ImageRef
  vendor_data : Option String
deriving DecidableEq, Repr

/-- Modelled from the spec: the Blueprint provider's state after the bundle
is extracted — the named documents and the caller's current architecture. -/
structure DefaultVMBlueprintProvider where
  docs : List (String × BlueprintDoc)
  arch : String
deriving DecidableEq, Repr

namespace DefaultVMBlueprintProvider

/-- Modelled from the spec (section 4.3) and the tests
(`infoForUnknownBlueprintThrows`, `missingDescriptionThrows`,
`infoForIncompatibleThrows`): look a Blueprint up by name — unknown name is
an `out_of_range` lookup-miss, an existing but invalid document throws
`InvalidBlueprintException`, and an architecture allow-list excluding the
current architecture throws `IncompatibleBlueprintException`. -/
def blueprint_from (p : DefaultVMBlueprintProvider) (name : String) :
    Except BlueprintError BlueprintDoc :=
  match p.docs.lookup name with
  | none => .error BlueprintError.outOfRange
  | some d =>
    match d.validation_error with
    | some msg => .error (BlueprintError.invalidBlueprint msg)
    | none =>
      match d.runs_on with
      | some archs =>
        if p.arch ∈ archs then .ok d else .error (BlueprintError.incompatibleBlueprint name)
      | none => .ok d

/-- Modelled from the spec: `info_for(name)` validates the document as above
and returns it. -/
def info_for (p : DefaultVMBlueprintProvider) (name : String) :
    Except BlueprintError BlueprintDoc :=
  blueprint_from p name

/-- Modelled from the spec (section 4.4, Resource Constraint Merger) and the
tests (`givenCoresLessThanMinimumThrows`, `higherOptionsIsNotOverriden`):
with no minimum the value passes through; an unset (zero) value is raised to
the minimum silently; an explicit value below the minimum throws
`BlueprintMinimumException` naming the field, the supplied value and the
minimum; an explicit value at or above the minimum is left unchanged. -/
def merge_minimum (field : String) (minimum : Option Nat) (current : Nat) :
    Except BlueprintError Nat :=
  match minimum with
  | none => .ok current
  | some m =>
    if current = 0 then .ok m
    else if current < m then .error (BlueprintError.blueprintMinimum field current m)
    else .ok current

/-- Modelled from the spec: the merger applied to the three constrained
fields, in the order the tests exhibit (CPUs, then memory, then disk), with
the field names of the tests' expected messages. -/
def apply_minimums (d : BlueprintDoc) (vm : VirtualMachineDescription) :
    Except BlueprintError VirtualMachineDescription :=
  match merge_minimum "Number of CPUs" d.min_cpus vm.num_cores with
  | .error e => .error e
  | .ok cores =>
    match merge_minimum "Memory size" d.min_mem vm.mem_size with
    | .error e => .error e
    | .ok mem =>
      match merge_minimum "Disk space" d.min_disk vm.disk_space with
      | .error e => .error e
      | .ok disk => .ok { vm with num_cores := cores, mem_size := mem, disk_space := disk }

/-- Modelled from the spec (section 4.3) and the tests: the `Query` built
from the Blueprint's image reference. A URL scheme other than http, https or
file throws `InvalidBlueprintException` "Unsupported image scheme in
Blueprint" (`invalidImageSchemeThrows`); an absent image yields
`release = "default"` (`noImageDefinedReturnsDefault`,
`fetchTestBlueprint1ReturnsExpectedInfo`). -/
def query_from_image_ref : ImageRef → Except BlueprintError Query
  | ImageRef.noImage => .ok ⟨"default", "", false⟩
  | ImageRef.aliasRef rel rem => .ok ⟨rel, rem, false⟩
  | ImageRef.urlRef scheme rest =>
    if scheme = "http" ∨ scheme = "https" ∨ scheme = "file" then
      .ok ⟨scheme ++ "://" ++ rest, "", false⟩
    else
      .error (BlueprintError.invalidBlueprint "Unsupported image scheme in Blueprint")

/-- Modelled from the spec (section 4.3): `fetch_blueprint_for` looks the
Blueprint up and validates it, applies the resource minimums, sets the
vendor data from the Blueprint's cloud-init document when present, and
returns the `Query` built from the image reference together with the merged
description. -/
def fetch_blueprint_for (p : DefaultVMBlueprintProvider) (name : String)
    (vm : VirtualMachineDescription) :
    Except BlueprintError (Query × VirtualMachineDescription) :=
  match blueprint_from p name with
  | .error e => .error e
  | .ok d =>
    match apply_minimums d vm with
    | .error e => .error e
    | .ok vm1 =>
      let vm2 := match d.vendor_data with
        | some v => { vm1 with vendor_data_config := some v }
        | none => vm1
      match query_from_image_ref d.image_ref with
      | .error e => .error e
      | .ok q => .ok (q, vm2)

end DefaultVMBlueprintProvider

/-!
Catalog Cache (TTL-gated fetch-or-reuse). The refresh logic lives in the
common host base class and the Blueprint provider's
`fetch_blueprints_if_needed`, neither of which is in this tree.
-/

/-- Modelled from the spec (section 4.1): the cache state — one
`last_fetch_timestamp` per key, at most one entry per key, plus a counter of
underlying network fetches (the tests observe it as the number of
`download_to` calls). -/
structure CatalogCache where
  entries : List (String × Nat)
  fetch_count : Nat
deriving DecidableEq, Repr

/-- Modelled from the spec (section 4.1): `ensure_fresh(key)` at time `now`
with the configured `ttl` — no entry means fetch synchronously and store;
an entry whose age has reached the TTL is refetched and replaced in place;
a fresh entry is served without any network fetch. (The failure path keeps
the stale entry; it does not change the fetch counting this models.) -/
def ensure_fresh (ttl now : Nat) (key : String) (c : CatalogCache) : CatalogCache :=
  match c.entries.lookup key with
  | none =>
    { entries := (key, now) :: c.entries, fetch_count := c.fetch_count + 1 }
  | some ts =>
    if ttl ≤ now - ts then
      { entries := (key, now) :: c.entries.filter (fun e => !(e.1 == key)),
        fetch_count := c.fetch_count + 1 }
    else
      c

/-!
Blueprint provider construction (claim C9). The constructor downloads and
extracts the bundle; its error policy is pinned by the tests
(`downloadFailureOnStartupLogsErrorAndDoesNotThrow`,
`zipArchivePocoExceptionLogsErrorAndDoesNotThrow`,
`generalExceptionDuringStartupThrows`).
-/

/-- Modelled from the spec: the outcome of the bundle download and
extraction the constructor attempts. -/
inductive StartupOutcome where
  | fetched (docs : List (String × BlueprintDoc))
  | downloadFailure (url msg : String)
  | extractionFailure (msg : String)
  | otherFailure (msg : String)
deriving DecidableEq, Repr

/-- Modelled from the spec: a constructed provider together with the
error-level log entries emitted during construction. -/
structure ConstructedProvider where
  docs : List (String × BlueprintDoc)
  error_log : List String
deriving DecidableEq, Repr

/-- Modelled from the spec (section 7) and the tests: construction never
throws for a transport (download) failure or an archive-extraction failure —
these are logged and the catalog continues with zero blueprints — but any
other unexpected error propagates to the caller. -/
def construct_provider : StartupOutcome → Except String ConstructedProvider
  | StartupOutcome.fetched docs => .ok ⟨docs, []⟩
  | StartupOutcome.downloadFailure url msg =>
    .ok ⟨[], ["Error fetching Blueprints: failed to download from " ++ url ++ ": " ++ msg]⟩
  | StartupOutcome.extractionFailure msg =>
    .ok ⟨[], ["Error extracting Blueprints zip file: " ++ msg]⟩
  | StartupOutcome.otherFailure msg => .error msg

/-!
Concrete fixtures, used by witnesses and counterexamples.
-/

/-- A supported record answering the "bionic" and "default" aliases. -/
def demo_bionic : VMImageInfo :=
  ⟨["bionic", "default"], "ubuntu", "18.04", "Bionic Beaver", true,
    "bionic.img", "bionic.krn", "bionic.ird", "f00dcafe", "stream", "20220101", 1000, true⟩

/-- A record whose content-id is a strict prefix of `demo_long`'s. -/
def demo_short : VMImageInfo :=
  { demo_bionic with aliases := [], id := "abc", image_location := "short.img" }

/-- A record whose content-id extends `demo_short`'s. -/
def demo_long : VMImageInfo :=
  { demo_bionic with aliases := [], id := "abc123", image_location := "long.img" }

def demo_release_manifest : SimpleStreamsManifest :=
  ⟨[demo_long, demo_short, demo_bionic],
   [("bionic", demo_bionic), ("default", demo_bionic)]⟩

def demo_daily_manifest : SimpleStreamsManifest := ⟨[], []⟩

def demo_host : UbuntuVMImageHost :=
  ⟨[("release", "http://r/"), ("daily", "http://d/")],
   [("release", demo_release_manifest), ("daily", demo_daily_manifest)], [], []⟩

/-- `demo_host` with the release remote made unsupported by the platform. -/
def demo_host_unsup : UbuntuVMImageHost :=
  { demo_host with unsupported_remotes := ["release"] }

/-!
Blueprint fixtures (modelled on the test data of
`src/tests/test_blueprint_provider.cpp`).
-/

/-- Modelled on "test-blueprint1": min cpus 2, min memory 2G, min disk 25G,
no image reference, a cloud-init vendor-data document. -/
def bp_test1 : BlueprintDoc :=
  ⟨none, none, some 2, some 2147483648, some 26843545600, ImageRef.noImage,
    some "runcmd echo Have fun!"⟩

/-- Modelled on "no-image-blueprint": no image reference, no minimums. -/
def bp_no_image : BlueprintDoc :=
  ⟨none, none, none, none, none, ImageRef.noImage, none⟩

/-- Modelled on "missing-description-blueprint": fails validation. -/
def bp_missing_description : BlueprintDoc :=
  ⟨some "description key is required", none, none, none, none, ImageRef.noImage, none⟩

/-- Modelled on "arch-only": an architecture allow-list. -/
def bp_arch_only : BlueprintDoc :=
  ⟨none, some ["arch"], none, none, none, ImageRef.noImage, none⟩

/-- Modelled on "invalid-image-blueprint": an unsupported URL scheme. -/
def bp_bad_scheme : BlueprintDoc :=
  ⟨none, none, none, none, none, ImageRef.urlRef "ftp" "example.com/x.img", none⟩

def demo_provider : DefaultVMBlueprintProvider :=
  ⟨[("test-blueprint1", bp_test1), ("no-image-blueprint", bp_no_image),
    ("missing-description-blueprint", bp_missing_description),
    ("arch-only", bp_arch_only), ("bad-scheme-blueprint", bp_bad_scheme)], "amd64"⟩

/-!
Helper lemmas about the resolver.
-/

lemma hash_scan_mem {url key : String} {allow : Bool} {rname : String} :
    ∀ (products : List VMImageInfo) (found : List String) (x : String × VMImageInfo),
      x ∈ UbuntuVMImageHost.hash_scan url key allow rname products found →
      x.1 = rname ∧ ∃ e, e ∈ products ∧ x.2 = with_location_fully_resolved url e ∧
        starts_with e.id key = true ∧ (e.supported || allow) = true := by
  intro products
  induction products with
  | nil =>
    intro found x hx
    simp [UbuntuVMImageHost.hash_scan] at hx
  | cons entry rest ih =>
    intro found x hx
    simp only [UbuntuVMImageHost.hash_scan] at hx
    split at hx
    case isTrue hcond =>
      simp only [Bool.and_eq_true] at hcond
      rcases List.mem_cons.mp hx with h1 | h2
      · refine ⟨by rw [h1], entry, List.mem_cons_self _ _, by rw [h1], ?_, ?_⟩
        · exact hcond.1.1
        · exact hcond.1.2
      · obtain ⟨ht, e, he, hx2, hs, hsup⟩ := ih _ _ h2
        exact ⟨ht, e, List.mem_cons_of_mem _ he, hx2, hs, hsup⟩
    case isFalse =>
      obtain ⟨ht, e, he, hx2, hs, hsup⟩ := ih _ _ hx
      exact ⟨ht, e, List.mem_cons_of_mem _ he, hx2, hs, hsup⟩

lemma matches_in_remote_mem {h : UbuntuVMImageHost} {q : Query} {key r : String}
    {m : SimpleStreamsManifest} {imgs : List (String × VMImageInfo)}
    (hok : UbuntuVMImageHost.matches_in_remote h q key r m = .ok imgs) :
    ∀ x ∈ imgs, x.1 = r ∧ ∃ e,
      (UbuntuVMImageHost.match_alias key m = some e ∨ e ∈ m.products) ∧
      x.2 = with_location_fully_resolved (h.remote_url_from r) e := by
  intro x hx
  rcases ha : UbuntuVMImageHost.match_alias key m with _ | info
  · simp only [UbuntuVMImageHost.matches_in_remote, ha] at hok
    cases hok
    obtain ⟨ht, e, he, hx2, _, _⟩ := hash_scan_mem m.products [] x hx
    exact ⟨ht, e, Or.inr he, hx2⟩
  · simp only [UbuntuVMImageHost.matches_in_remote, ha] at hok
    split at hok
    · cases hok
    · cases hok
      rcases List.mem_singleton.mp hx with h1
      subst h1
      exact ⟨rfl, info, Or.inl rfl, rfl⟩

lemma matches_in_remote_error {h : UbuntuVMImageHost} {q : Query} {key r : String}
    {m : SimpleStreamsManifest} {e : HostError}
    (herr : UbuntuVMImageHost.matches_in_remote h q key r m = .error e) :
    e = HostError.unsupportedImage q.release := by
  rcases ha : UbuntuVMImageHost.match_alias key m with _ | info
  · simp only [UbuntuVMImageHost.matches_in_remote, ha] at herr
    cases herr
  · simp only [UbuntuVMImageHost.matches_in_remote, ha] at herr
    split at herr
    · cases herr
      rfl
    · cases herr

lemma search_remotes_cons_ok {h : UbuntuVMImageHost} {q : Query} {key r : String}
    {rest : List String} {images : List (String × VMImageInfo)}
    (hok : UbuntuVMImageHost.search_remotes h q key (r :: rest) = .ok images) :
    ∃ i1 i2, images = i1 ++ i2 ∧
      (∀ x ∈ i1, x.1 = r ∧ ∃ m e, h.manifest_from r = .ok m ∧
        (UbuntuVMImageHost.match_alias key m = some e ∨ e ∈ m.products) ∧
        x.2 = with_location_fully_resolved (h.remote_url_from r) e) ∧
      UbuntuVMImageHost.search_remotes h q key rest = .ok i2 := by
  rcases hm : h.manifest_from r with e | m
  · simp only [UbuntuVMImageHost.search_remotes, hm] at hok
    split at hok
    · exact ⟨[], images, by simp, by simp, hok⟩
    · cases hok
  · simp only [UbuntuVMImageHost.search_remotes, hm] at hok
    rcases hmt : UbuntuVMImageHost.matches_in_remote h q key r m with e' | imgs
    · simp only [hmt] at hok
      cases hok
    · simp only [hmt] at hok
      rcases hrest : UbuntuVMImageHost.search_remotes h q key rest with e'' | more
      · simp only [hrest] at hok
        cases hok
      · simp only [hrest] at hok
        cases hok
        refine ⟨imgs, more, rfl, ?_, rfl⟩
        intro x hx
        obtain ⟨ht, e, hcase, hx2⟩ := matches_in_remote_mem hmt x hx
        exact ⟨ht, m, e, rfl, hcase, hx2⟩

lemma search_remotes_nil {h : UbuntuVMImageHost} {q : Query} {key : String} :
    UbuntuVMImageHost.search_remotes h q key [] = .ok [] := rfl

lemma all_info_for_ok {h : UbuntuVMImageHost} {q : Query}
    {images : List (String × VMImageInfo)}
    (hall : h.all_info_for q = .ok images) :
    UbuntuVMImageHost.search_remotes h q (key_from q.release)
      (UbuntuVMImageHost.remotes_to_search q) = .ok images := by
  simp only [UbuntuVMImageHost.all_info_for] at hall
  split at hall
  · cases hall
  · exact hall

/-- C2 (counterexample): the spec exempts "an exact full-content-id key" from
the ambiguity check, but `info_for` only compares the key against the FIRST
accumulated match's id. Querying "abc" against a manifest listing content-ids
"abc123" (first) and "abc" throws "Too many images matching" even though
"abc" is itself an exact content-id present in the searched manifest. -/
theorem c2_counterexample :
    demo_short ∈ demo_release_manifest.products ∧ demo_short.id = "abc" ∧
    demo_long ∈ demo_release_manifest.products ∧
    starts_with demo_long.id "abc" = true ∧ demo_long.id ≠ demo_short.id ∧
    demo_host.info_for ⟨"abc", "release", false⟩ =
      .error (HostError.tooManyImages "abc") := by
  decide

/-- C2 (amended): for a query whose first accumulated match is a hash-prefix
match (its content-id starts with the lookup key): a single match is
returned; two or more matches with the key differing from the first match's
content-id fail with the ambiguity error; a key equal to the first match's
content-id is exempt. -/
theorem c2_hash_ambiguity (h : UbuntuVMImageHost) (q : Query)
    (first : String × VMImageInfo) (rest : List (String × VMImageInfo))
    (hall : h.all_info_for q = .ok (first :: rest)) :
    (rest = [] → h.info_for q = .ok (some first.2)) ∧
    (starts_with first.2.id (key_from q.release) = true →
      key_from q.release ≠ first.2.id → rest ≠ [] →
      h.info_for q = .error (HostError.tooManyImages q.release)) ∧
    (key_from q.release = first.2.id → h.info_for q = .ok (some first.2)) := by
  refine ⟨?_, ?_, ?_⟩
  · intro hrest
    subst hrest
    simp [UbuntuVMImageHost.info_for, hall]
  · intro hsw hne hrest
    simp only [UbuntuVMImageHost.info_for, hall]
    rw [if_pos ⟨List.length_pos.mpr hrest, hne, hsw⟩]
  · intro hkey
    simp only [UbuntuVMImageHost.info_for, hall]
    rw [if_neg]
    intro hc
    exact hc.2.1 hkey

/-- C2 (witness for the amended theorem): a pinned query for the full
content-id "abc123" matches exactly one record and returns it resolved. -/
theorem c2_hash_ambiguity_witness :
    demo_host.info_for ⟨"abc123", "release", false⟩ =
      .ok (some (with_location_fully_resolved "http://r/" demo_long)) :=
  (c2_hash_ambiguity demo_host ⟨"abc123", "release", false⟩
      ("release", with_location_fully_resolved "http://r/" demo_long) []
      (by decide)).1 rfl

/-- C10: whenever the first match accumulated by `all_info_for` is an alias
match — its content-id does not start with the normalized lookup key —
`info_for` returns that first record without error, however many further
matches exist; and the ambiguity error can only arise when the first
record's content-id starts with the lookup key and differs from it. -/
theorem c10_first_match_alias_no_ambiguity (h : UbuntuVMImageHost) (q : Query)
    (first : String × VMImageInfo) (rest : List (String × VMImageInfo))
    (hall : h.all_info_for q = .ok (first :: rest)) :
    (starts_with first.2.id (key_from q.release) = false →
      h.info_for q = .ok (some first.2)) ∧
    (∀ s, h.info_for q = .error (HostError.tooManyImages s) →
      s = q.release ∧ starts_with first.2.id (key_from q.release) = true ∧
        key_from q.release ≠ first.2.id) := by
  constructor
  · intro hsw
    simp only [UbuntuVMImageHost.info_for, hall]
    rw [if_neg]
    intro hc
    rw [hsw] at hc
    exact Bool.false_ne_true hc.2.2
  · intro s herr
    simp only [UbuntuVMImageHost.info_for, hall] at herr
    split at herr
    case isTrue hc =>
      injection herr with h1
      injection h1 with h2
      exact ⟨h2.symm, hc.2.2, hc.2.1⟩
    case isFalse hc =>
      cases herr

/-- C10 (witness): an unpinned "bionic" alias query returns the alias match. -/
theorem c10_witness :
    demo_host.info_for ⟨"bionic", "", false⟩ =
      .ok (some (with_location_fully_resolved "http://r/" demo_bionic)) :=
  (c10_first_match_alias_no_ambiguity demo_host ⟨"bionic", "", false⟩
      ("release", with_location_fully_resolved "http://r/" demo_bionic) []
      (by decide)).1 (by decide)

lemma search_remotes_mem {h : UbuntuVMImageHost} {q : Query} {key : String} :
    ∀ (rs : List String) (images : List (String × VMImageInfo)),
      UbuntuVMImageHost.search_remotes h q key rs = .ok images →
      ∀ x ∈ images, ∃ m e, h.manifest_from x.1 = .ok m ∧
        (UbuntuVMImageHost.match_alias key m = some e ∨ e ∈ m.products) ∧
        x.2 = with_location_fully_resolved (h.remote_url_from x.1) e := by
  intro rs
  induction rs with
  | nil =>
    intro images hok x hx
    cases hok
    simp at hx
  | cons r rest ih =>
    intro images hok x hx
    obtain ⟨i1, i2, heq, hi1, hi2⟩ := search_remotes_cons_ok hok
    subst heq
    rcases List.mem_append.mp hx with h1 | h2
    · obtain ⟨ht, m, e, hm, hcase, hx2⟩ := hi1 x h1
      rw [ht]
      exact ⟨m, e, hm, hcase, hx2⟩
    · exact ih i2 hi2 x h2

lemma search_remotes_ne_unsupported {h : UbuntuVMImageHost} {q : Query} {key : String}
    (hq : q.remote_name = "") :
    ∀ rs : List String,
      UbuntuVMImageHost.search_remotes h q key rs ≠ .error HostError.unsupportedRemote := by
  intro rs
  induction rs with
  | nil =>
    intro hcontra
    cases hcontra
  | cons r rest ih =>
    intro hcontra
    rcases hm : h.manifest_from r with e | m
    · simp only [UbuntuVMImageHost.search_remotes, hm] at hcontra
      split at hcontra
      · exact ih hcontra
      case isFalse hcond =>
        injection hcontra with h1
        exact hcond ⟨h1, hq⟩
    · simp only [UbuntuVMImageHost.search_remotes, hm] at hcontra
      rcases hmt : UbuntuVMImageHost.matches_in_remote h q key r m with e' | imgs
      · simp only [hmt] at hcontra
        injection hcontra with h1
        have := matches_in_remote_error hmt
        rw [this] at h1
        cases h1
      · simp only [hmt] at hcontra
        rcases hrest : UbuntuVMImageHost.search_remotes h q key rest with e'' | more
        · simp only [hrest] at hcontra
          injection hcontra with h1
          rw [h1] at hrest
          exact ih hrest
        · simp only [hrest] at hcontra
          cases hcontra

/-- C4: every record returned by `all_info_for`, `info_for`,
`info_for_full_hash_impl` and `all_images_for` is a stored manifest record
with its image, kernel and initrd locations rewritten, exactly once at the
return boundary, by prefixing the serving remote's base URL (the stored
record itself is untouched). -/
theorem c4_locations_resolved_at_boundary :
    (∀ (h : UbuntuVMImageHost) (q : Query) images,
        h.all_info_for q = .ok images →
        ∀ x ∈ images, ∃ m e, h.manifest_from x.1 = .ok m ∧
          (UbuntuVMImageHost.match_alias (key_from q.release) m = some e ∨ e ∈ m.products) ∧
          x.2 = with_location_fully_resolved (h.remote_url_from x.1) e ∧
          x.2.image_location = h.remote_url_from x.1 ++ e.image_location ∧
          x.2.kernel_location = h.remote_url_from x.1 ++ e.kernel_location ∧
          x.2.initrd_location = h.remote_url_from x.1 ++ e.initrd_location) ∧
    (∀ (h : UbuntuVMImageHost) (q : Query) info,
        h.info_for q = .ok (some info) →
        ∃ rname m e, h.manifest_from rname = .ok m ∧
          (UbuntuVMImageHost.match_alias (key_from q.release) m = some e ∨ e ∈ m.products) ∧
          info = with_location_fully_resolved (h.remote_url_from rname) e) ∧
    (∀ (h : UbuntuVMImageHost) (full_hash : String) info,
        h.info_for_full_hash_impl full_hash = .ok info →
        ∃ rname m e, (rname, m) ∈ h.manifests ∧ e ∈ m.products ∧ e.id = full_hash ∧
          info = with_location_fully_resolved (h.remote_url_from rname) e) ∧
    (∀ (h : UbuntuVMImageHost) (rname : String) (allow : Bool) images,
        h.all_images_for rname allow = .ok images →
        ∀ info ∈ images, ∃ m e, h.manifest_from rname = .ok m ∧ e ∈ m.products ∧
          info = with_location_fully_resolved (h.remote_url_from rname) e) := by
  refine ⟨?_, ?_, ?_, ?_⟩
  · intro h q images hall x hx
    obtain ⟨m, e, hm, hcase, hx2⟩ :=
      search_remotes_mem _ _ (all_info_for_ok hall) x hx
    exact ⟨m, e, hm, hcase, hx2, by rw [hx2]; rfl, by rw [hx2]; rfl, by rw [hx2]; rfl⟩
  · intro h q info hinfo
    rcases hall : h.all_info_for q with e | images
    · simp only [UbuntuVMImageHost.info_for, hall] at hinfo
      cases hinfo
    · rcases images with _ | ⟨first, rest⟩
      · simp only [UbuntuVMImageHost.info_for, hall] at hinfo
        cases hinfo
      · simp only [UbuntuVMImageHost.info_for, hall] at hinfo
        split at hinfo
        · cases hinfo
        · injection hinfo with h1
          injection h1 with h2
          obtain ⟨m, e, hm, hcase, hx2⟩ :=
            search_remotes_mem _ _ (all_info_for_ok hall) first (List.mem_cons_self _ _)
          exact ⟨first.1, m, e, hm, hcase, by rw [← h2]; exact hx2⟩
  · intro h full_hash info hinfo
    simp only [UbuntuVMImageHost.info_for_full_hash_impl] at hinfo
    rcases hfind : UbuntuVMImageHost.find_full_hash h full_hash h.manifests with _ | found
    · rw [hfind] at hinfo
      cases hinfo
    · rw [hfind] at hinfo
      injection hinfo with h1
      subst h1
      have : ∀ ms : List (String × SimpleStreamsManifest),
          UbuntuVMImageHost.find_full_hash h full_hash ms = some found →
          ∃ rname m e, (rname, m) ∈ ms ∧ e ∈ m.products ∧ e.id = full_hash ∧
            found = with_location_fully_resolved (h.remote_url_from rname) e := by
        intro ms
        induction ms with
        | nil => intro hf; cases hf
        | cons pair rest ih =>
          intro hf
          rcases pair with ⟨rname, m⟩
          simp only [UbuntuVMImageHost.find_full_hash] at hf
          rcases hp : m.products.find? (fun p => p.id == full_hash) with _ | p
          · rw [hp] at hf
            obtain ⟨rn, mm, e, hmem, hep, hid, heq⟩ := ih hf
            exact ⟨rn, mm, e, List.mem_cons_of_mem _ hmem, hep, hid, heq⟩
          · rw [hp] at hf
            injection hf with h2
            refine ⟨rname, m, p, List.mem_cons_self _ _, List.mem_of_find?_eq_some hp, ?_, h2.symm⟩
            have := List.find?_some hp
            exact eq_of_beq this
      exact this h.manifests hfind
  · intro h rname allow images hall info hinfo
    rcases hm : h.manifest_from rname with e | m
    · simp only [UbuntuVMImageHost.all_images_for, hm] at hall
      cases hall
    · simp only [UbuntuVMImageHost.all_images_for, hm] at hall
      split at hall
      · cases hall
      · injection hall with h1
        rw [← h1] at hinfo
        obtain ⟨e, he, hfe⟩ := List.mem_filterMap.mp hinfo
        refine ⟨m, e, rfl, he, ?_⟩
        split at hfe
        · injection hfe with h2
          exact h2.symm
        · cases hfe

/-- C4 (witness): the alias match of the unpinned "bionic" query is the
stored record with locations prefixed by the release remote's base URL. -/
theorem c4_witness :
    ∃ m e, demo_host.manifest_from "release" = .ok m ∧
      (UbuntuVMImageHost.match_alias (key_from "bionic") m = some e ∨ e ∈ m.products) ∧
      ("release", with_location_fully_resolved "http://r/" demo_bionic).2 =
        with_location_fully_resolved (demo_host.remote_url_from "release") e ∧
      ("release", with_location_fully_resolved "http://r/" demo_bionic).2.image_location =
        demo_host.remote_url_from "release" ++ e.image_location ∧
      ("release", with_location_fully_resolved "http://r/" demo_bionic).2.kernel_location =
        demo_host.remote_url_from "release" ++ e.kernel_location ∧
      ("release", with_location_fully_resolved "http://r/" demo_bionic).2.initrd_location =
        demo_host.remote_url_from "release" ++ e.initrd_location :=
  c4_locations_resolved_at_boundary.1 demo_host ⟨"bionic", "", false⟩
    [("release", with_location_fully_resolved "http://r/" demo_bionic)]
    (by decide) ("release", with_location_fully_resolved "http://r/" demo_bionic)
    (List.mem_singleton.mpr rfl)

/-- C5: a query with a non-empty `remote_name` searches exactly that remote
(every accumulated match is tagged with it); a query with an empty
`remote_name` searches the release remote first and then the daily remote,
the accumulated match list being the release-remote matches followed by the
daily-remote matches. -/
theorem c5_remote_search_order (h : UbuntuVMImageHost) (q : Query)
    (images : List (String × VMImageInfo))
    (hall : h.all_info_for q = .ok images) :
    (q.remote_name ≠ "" → ∀ x ∈ images, x.1 = q.remote_name) ∧
    (q.remote_name = "" → ∃ rel_imgs daily_imgs,
      images = rel_imgs ++ daily_imgs ∧
      (∀ x ∈ rel_imgs, x.1 = release_remote) ∧
      (∀ x ∈ daily_imgs, x.1 = daily_remote)) := by
  have hsearch := all_info_for_ok hall
  constructor
  · intro hpin x hx
    rw [UbuntuVMImageHost.remotes_to_search, if_pos hpin] at hsearch
    obtain ⟨i1, i2, heq, hi1, hi2⟩ := search_remotes_cons_ok hsearch
    cases hi2
    subst heq
    rw [List.append_nil] at hx
    exact (hi1 x hx).1
  · intro hq
    rw [UbuntuVMImageHost.remotes_to_search, if_neg (by simp [hq])] at hsearch
    obtain ⟨i1, i2, heq, hi1, hi2⟩ := search_remotes_cons_ok hsearch
    obtain ⟨j1, j2, heq2, hj1, hj2⟩ := search_remotes_cons_ok hi2
    cases hj2
    subst heq2
    subst heq
    rw [List.append_nil]
    exact ⟨i1, j1, rfl, fun x hx => (hi1 x hx).1, fun x hx => (hj1 x hx).1⟩

/-- C5 (witness): an unpinned "abc" hash query accumulates the release
matches before the (empty) daily matches. -/
theorem c5_witness :
    ∃ rel_imgs daily_imgs,
      ([("release", with_location_fully_resolved "http://r/" demo_long),
        ("release", with_location_fully_resolved "http://r/" demo_short)] :
          List (String × VMImageInfo)) = rel_imgs ++ daily_imgs ∧
      (∀ x ∈ rel_imgs, x.1 = release_remote) ∧
      (∀ x ∈ daily_imgs, x.1 = daily_remote) :=
  (c5_remote_search_order demo_host ⟨"abc", "", false⟩
      [("release", with_location_fully_resolved "http://r/" demo_long),
       ("release", with_location_fully_resolved "http://r/" demo_short)]
      (by decide)).2 rfl

/-- C6: an `UnsupportedRemoteException` while obtaining a remote's manifest
is swallowed (the remote skipped) when the query's `remote_name` is empty —
an unpinned resolution never fails with it, and an unsupported release
remote reduces the search to the daily remote — but it is re-raised to the
caller when the query explicitly pinned that remote. -/
theorem c6_unsupported_remote_policy (h : UbuntuVMImageHost) (q : Query) :
    (q.remote_name = "" → h.all_info_for q ≠ .error HostError.unsupportedRemote) ∧
    (q.remote_name ≠ "" → q.remote_name ∈ h.unsupported_remotes →
      (key_from q.release, q.remote_name) ∉ h.unsupported_alias_keys →
      h.all_info_for q = .error HostError.unsupportedRemote) ∧
    (q.remote_name = "" → release_remote ∈ h.unsupported_remotes →
      (key_from q.release, q.remote_name) ∉ h.unsupported_alias_keys →
      h.all_info_for q =
        UbuntuVMImageHost.search_remotes h q (key_from q.release) [daily_remote]) := by
  refine ⟨?_, ?_, ?_⟩
  · intro hq hcontra
    simp only [UbuntuVMImageHost.all_info_for] at hcontra
    split at hcontra
    · cases hcontra
    · exact search_remotes_ne_unsupported hq _ hcontra
  · intro hpin hmem halias
    simp only [UbuntuVMImageHost.all_info_for]
    rw [if_neg halias]
    rw [UbuntuVMImageHost.remotes_to_search, if_pos hpin]
    simp only [UbuntuVMImageHost.search_remotes, UbuntuVMImageHost.manifest_from,
      if_pos hmem]
    rw [if_neg]
    intro hc
    exact hpin hc.2
  · intro hq hmem halias
    simp only [UbuntuVMImageHost.all_info_for]
    rw [if_neg halias]
    rw [UbuntuVMImageHost.remotes_to_search, if_neg (by simp [hq])]
    simp only [UbuntuVMImageHost.search_remotes, UbuntuVMImageHost.manifest_from,
      if_pos hmem]
    simp [hq]

/-- C6 (witness): pinning the unsupported release remote re-raises the
error; the same query unpinned does not fail with it. -/
theorem c6_witness :
    demo_host_unsup.all_info_for ⟨"bionic", "release", false⟩ =
      .error HostError.unsupportedRemote ∧
    demo_host_unsup.all_info_for ⟨"bionic", "", false⟩ ≠
      .error HostError.unsupportedRemote :=
  ⟨(c6_unsupported_remote_policy demo_host_unsup ⟨"bionic", "release", false⟩).2.1
      (by decide) (by decide) (by decide),
   (c6_unsupported_remote_policy demo_host_unsup ⟨"bionic", "", false⟩).1 rfl⟩

/-- C1: for each of cpus, memory and disk, the merge against a Blueprint
minimum sets an unset (zero) value to the minimum silently, fails with
`BlueprintMinimumException` naming the field, the supplied value and the
minimum when the caller explicitly supplied a value below the minimum, and
leaves a value at or above the minimum unchanged; `fetch_blueprint_for`
applies exactly this merge to the three fields in order. -/
theorem c1_resource_constraint_merge (p : DefaultVMBlueprintProvider) (name : String)
    (vm : VirtualMachineDescription) (d : BlueprintDoc)
    (hbp : p.blueprint_from name = .ok d) :
    (∀ f m, DefaultVMBlueprintProvider.merge_minimum f (some m) 0 = .ok m) ∧
    (∀ f m v, 0 < v → v < m →
      DefaultVMBlueprintProvider.merge_minimum f (some m) v =
        .error (BlueprintError.blueprintMinimum f v m)) ∧
    (∀ f m v, m ≤ v → DefaultVMBlueprintProvider.merge_minimum f (some m) v = .ok v) ∧
    (∀ f v, DefaultVMBlueprintProvider.merge_minimum f none v = .ok v) ∧
    (∀ q out, p.fetch_blueprint_for name vm = .ok (q, out) →
      DefaultVMBlueprintProvider.merge_minimum "Number of CPUs" d.min_cpus vm.num_cores
          = .ok out.num_cores ∧
      DefaultVMBlueprintProvider.merge_minimum "Memory size" d.min_mem vm.mem_size
          = .ok out.mem_size ∧
      DefaultVMBlueprintProvider.merge_minimum "Disk space" d.min_disk vm.disk_space
          = .ok out.disk_space) ∧
    (∀ e, DefaultVMBlueprintProvider.merge_minimum "Number of CPUs" d.min_cpus vm.num_cores
        = .error e → p.fetch_blueprint_for name vm = .error e) ∧
    (∀ c e, DefaultVMBlueprintProvider.merge_minimum "Number of CPUs" d.min_cpus vm.num_cores
        = .ok c →
      DefaultVMBlueprintProvider.merge_minimum "Memory size" d.min_mem vm.mem_size = .error e →
      p.fetch_blueprint_for name vm = .error e) ∧
    (∀ c mm e, DefaultVMBlueprintProvider.merge_minimum "Number of CPUs" d.min_cpus vm.num_cores
        = .ok c →
      DefaultVMBlueprintProvider.merge_minimum "Memory size" d.min_mem vm.mem_size = .ok mm →
      DefaultVMBlueprintProvider.merge_minimum "Disk space" d.min_disk vm.disk_space = .error e →
      p.fetch_blueprint_for name vm = .error e) := by
  refine ⟨?_, ?_, ?_, ?_, ?_, ?_, ?_, ?_⟩
  · intro f m
    simp [DefaultVMBlueprintProvider.merge_minimum]
  · intro f m v h0 hvm
    simp only [DefaultVMBlueprintProvider.merge_minimum]
    rw [if_neg (by omega), if_pos hvm]
  · intro f m v hmv
    simp only [DefaultVMBlueprintProvider.merge_minimum]
    by_cases hv : v = 0
    · subst hv
      rw [if_pos rfl]
      have : m = 0 := by omega
      rw [this]
    · rw [if_neg hv, if_neg (by omega)]
  · intro f v
    simp [DefaultVMBlueprintProvider.merge_minimum]
  · intro q out hfetch
    rcases hc : DefaultVMBlueprintProvider.merge_minimum "Number of CPUs" d.min_cpus
        vm.num_cores with ec | c
    · simp only [DefaultVMBlueprintProvider.fetch_blueprint_for, hbp,
        DefaultVMBlueprintProvider.apply_minimums, hc] at hfetch
      cases hfetch
    · rcases hm2 : DefaultVMBlueprintProvider.merge_minimum "Memory size" d.min_mem
          vm.mem_size with em | mm
      · simp only [DefaultVMBlueprintProvider.fetch_blueprint_for, hbp,
          DefaultVMBlueprintProvider.apply_minimums, hc, hm2] at hfetch
        cases hfetch
      · rcases hd3 : DefaultVMBlueprintProvider.merge_minimum "Disk space" d.min_disk
            vm.disk_space with ed | dk
        · simp only [DefaultVMBlueprintProvider.fetch_blueprint_for, hbp,
            DefaultVMBlueprintProvider.apply_minimums, hc, hm2, hd3] at hfetch
          cases hfetch
        · rcases hq4 : DefaultVMBlueprintProvider.query_from_image_ref d.image_ref
              with eq | qq
          · simp only [DefaultVMBlueprintProvider.fetch_blueprint_for, hbp,
              DefaultVMBlueprintProvider.apply_minimums, hc, hm2, hd3, hq4] at hfetch
            cases hfetch
          · simp only [DefaultVMBlueprintProvider.fetch_blueprint_for, hbp,
              DefaultVMBlueprintProvider.apply_minimums, hc, hm2, hd3, hq4] at hfetch
            rcases hv : d.vendor_data with _ | v
            · rw [hv] at hfetch
              injection hfetch with h1
              rw [Prod.mk.injEq] at h1
              rw [← h1.2]
              exact ⟨rfl, rfl, rfl⟩
            · rw [hv] at hfetch
              injection hfetch with h1
              rw [Prod.mk.injEq] at h1
              rw [← h1.2]
              exact ⟨rfl, rfl, rfl⟩
  · intro e he
    simp only [DefaultVMBlueprintProvider.fetch_blueprint_for, hbp,
      DefaultVMBlueprintProvider.apply_minimums, he]
  · intro c e hc he
    simp only [DefaultVMBlueprintProvider.fetch_blueprint_for, hbp,
      DefaultVMBlueprintProvider.apply_minimums, hc, he]
  · intro c mm e hc hm2 hd3
    simp only [DefaultVMBlueprintProvider.fetch_blueprint_for, hbp,
      DefaultVMBlueprintProvider.apply_minimums, hc, hm2, hd3]

/-- C1 (witness): an explicit cpu count of 1 below the minimum 2 of
"test-blueprint1" fails naming the field and the minimum; an unset count is
raised to 2. -/
theorem c1_witness :
    demo_provider.fetch_blueprint_for "test-blueprint1" ⟨1, 0, 0, none⟩ =
      .error (BlueprintError.blueprintMinimum "Number of CPUs" 1 2) :=
  (c1_resource_constraint_merge demo_provider "test-blueprint1" ⟨1, 0, 0, none⟩
      bp_test1 (by decide)).2.2.2.2.2.1
    (BlueprintError.blueprintMinimum "Number of CPUs" 1 2) (by decide)

/-- C7: Blueprint `info_for(name)` fails with the `out_of_range` lookup-miss
when no document of that name exists, with `InvalidBlueprintException` when
the document exists but fails validation, and with
`IncompatibleBlueprintException` when an architecture allow-list excludes
the current architecture — three mutually distinct error kinds. -/
theorem c7_blueprint_error_taxonomy (p : DefaultVMBlueprintProvider) (name : String) :
    (p.docs.lookup name = none → p.info_for name = .error BlueprintError.outOfRange) ∧
    (∀ d msg, p.docs.lookup name = some d → d.validation_error = some msg →
      p.info_for name = .error (BlueprintError.invalidBlueprint msg)) ∧
    (∀ d archs, p.docs.lookup name = some d → d.validation_error = none →
      d.runs_on = some archs → p.arch ∉ archs →
      p.info_for name = .error (BlueprintError.incompatibleBlueprint name)) ∧
    (∀ msg n, BlueprintError.outOfRange ≠ BlueprintError.invalidBlueprint msg ∧
      BlueprintError.outOfRange ≠ BlueprintError.incompatibleBlueprint n ∧
      BlueprintError.invalidBlueprint msg ≠ BlueprintError.incompatibleBlueprint n) := by
  refine ⟨?_, ?_, ?_, ?_⟩
  · intro hnone
    simp [DefaultVMBlueprintProvider.info_for, DefaultVMBlueprintProvider.blueprint_from, hnone]
  · intro d msg hd hval
    simp [DefaultVMBlueprintProvider.info_for, DefaultVMBlueprintProvider.blueprint_from,
      hd, hval]
  · intro d archs hd hval harch hmem
    simp only [DefaultVMBlueprintProvider.info_for,
      DefaultVMBlueprintProvider.blueprint_from, hd, hval, harch]
    rw [if_neg hmem]
  · intro msg n
    exact ⟨by simp, by simp, by simp⟩

/-- C7 (witness): the three error kinds at concrete lookups. -/
theorem c7_witness :
    demo_provider.info_for "phony" = .error BlueprintError.outOfRange ∧
    demo_provider.info_for "missing-description-blueprint" =
      .error (BlueprintError.invalidBlueprint "description key is required") ∧
    demo_provider.info_for "arch-only" =
      .error (BlueprintError.incompatibleBlueprint "arch-only") :=
  ⟨(c7_blueprint_error_taxonomy demo_provider "phony").1 (by decide),
   (c7_blueprint_error_taxonomy demo_provider "missing-description-blueprint").2.1
      bp_missing_description "description key is required" (by decide) (by decide),
   (c7_blueprint_error_taxonomy demo_provider "arch-only").2.2.1
      bp_arch_only ["arch"] (by decide) (by decide) (by decide) (by decide)⟩

/-- C3: for any catalog key with no cached entry, two refresh requests
within one TTL window trigger exactly one underlying network fetch, and a
refresh request after the TTL has expired triggers a second fetch. -/
theorem c3_ttl_refresh (ttl t0 t1 : Nat) (key : String) (c : CatalogCache)
    (hmiss : c.entries.lookup key = none) (hle : t0 ≤ t1) :
    (t1 - t0 < ttl →
      (ensure_fresh ttl t1 key (ensure_fresh ttl t0 key c)).fetch_count =
        c.fetch_count + 1) ∧
    (ttl ≤ t1 - t0 →
      (ensure_fresh ttl t1 key (ensure_fresh ttl t0 key c)).fetch_count =
        c.fetch_count + 2) := by
  have h1 : ensure_fresh ttl t0 key c =
      { entries := (key, t0) :: c.entries, fetch_count := c.fetch_count + 1 } := by
    simp [ensure_fresh, hmiss]
  constructor
  · intro hfresh
    rw [h1]
    simp only [ensure_fresh, List.lookup, beq_self_eq_true]
    rw [if_neg (by omega)]
  · intro hstale
    rw [h1]
    simp only [ensure_fresh, List.lookup, beq_self_eq_true]
    rw [if_pos hstale]

/-- C3 (witness): with TTL 10, refreshes at times 0 and 5 fetch once;
refreshes at times 0 and 15 fetch twice. -/
theorem c3_witness :
    (ensure_fresh 10 5 "release" (ensure_fresh 10 0 "release" ⟨[], 0⟩)).fetch_count = 0 + 1 ∧
    (ensure_fresh 10 15 "release" (ensure_fresh 10 0 "release" ⟨[], 0⟩)).fetch_count = 0 + 2 :=
  ⟨(c3_ttl_refresh 10 0 5 "release" ⟨[], 0⟩ rfl (by omega)).1 (by omega),
   (c3_ttl_refresh 10 0 15 "release" ⟨[], 0⟩ rfl (by omega)).2 (by omega)⟩

/-- C8 (counterexample): the claim says a Blueprint with no image reference
yields a Query whose release is the empty string, but the provider's own
test (`noImageDefinedReturnsDefault`) pins `query.release == "default"`, and
the model returns "default". -/
theorem c8_counterexample :
    demo_provider.fetch_blueprint_for "no-image-blueprint" ⟨0, 0, 0, none⟩ =
      .ok (⟨"default", "", false⟩, ⟨0, 0, 0, none⟩) ∧
    ("default" : String) ≠ "" := by
  decide

/-- C8 (amended): `fetch_blueprint_for` builds the returned Query from the
Blueprint's image reference — a URL scheme other than http, https or file
fails with `InvalidBlueprintException` "Unsupported image scheme in
Blueprint", and a Blueprint with no image reference yields a Query whose
release is "default". -/
theorem c8_query_from_image_reference (p : DefaultVMBlueprintProvider) (name : String)
    (vm : VirtualMachineDescription) (d : BlueprintDoc) (vm1 : VirtualMachineDescription)
    (hbp : p.blueprint_from name = .ok d)
    (happ : DefaultVMBlueprintProvider.apply_minimums d vm = .ok vm1) :
    (∀ scheme rest, d.image_ref = ImageRef.urlRef scheme rest →
      scheme ≠ "http" → scheme ≠ "https" → scheme ≠ "file" →
      p.fetch_blueprint_for name vm =
        .error (BlueprintError.invalidBlueprint "Unsupported image scheme in Blueprint")) ∧
    (d.image_ref = ImageRef.noImage →
      ∃ out, p.fetch_blueprint_for name vm = .ok (⟨"default", "", false⟩, out)) := by
  constructor
  · intro scheme rest himg h1 h2 h3
    simp only [DefaultVMBlueprintProvider.fetch_blueprint_for, hbp, happ,
      DefaultVMBlueprintProvider.query_from_image_ref, himg]
    rw [if_neg (by tauto)]
  · intro himg
    simp only [DefaultVMBlueprintProvider.fetch_blueprint_for, hbp, happ,
      DefaultVMBlueprintProvider.query_from_image_ref, himg]
    rcases hv : d.vendor_data with _ | v
    · exact ⟨vm1, rfl⟩
    · exact ⟨{ vm1 with vendor_data_config := some v }, rfl⟩

/-- C8 (witness for the amended theorem): the "ftp" scheme fails with the
expected message; "no-image-blueprint" yields release "default". -/
theorem c8_witness :
    demo_provider.fetch_blueprint_for "bad-scheme-blueprint" ⟨0, 0, 0, none⟩ =
      .error (BlueprintError.invalidBlueprint "Unsupported image scheme in Blueprint") ∧
    ∃ out, demo_provider.fetch_blueprint_for "no-image-blueprint" ⟨0, 0, 0, none⟩ =
      .ok (⟨"default", "", false⟩, out) :=
  ⟨(c8_query_from_image_reference demo_provider "bad-scheme-blueprint" ⟨0, 0, 0, none⟩
        bp_bad_scheme ⟨0, 0, 0, none⟩ (by decide) (by decide)).1
      "ftp" "example.com/x.img" (by decide) (by decide) (by decide) (by decide),
   (c8_query_from_image_reference demo_provider "no-image-blueprint" ⟨0, 0, 0, none⟩
        bp_no_image ⟨0, 0, 0, none⟩ (by decide) (by decide)).2 (by decide)⟩

/-- C9: Blueprint catalog construction never throws for a transport
(download) failure or an archive-extraction failure — both are logged and
the catalog continues with zero blueprints — but any other unexpected error
raised during construction propagates to the caller. -/
theorem c9_construction_error_policy :
    (∀ url msg, construct_provider (StartupOutcome.downloadFailure url msg) =
      .ok ⟨[], ["Error fetching Blueprints: failed to download from " ++ url ++ ": " ++ msg]⟩) ∧
    (∀ msg, construct_provider (StartupOutcome.extractionFailure msg) =
      .ok ⟨[], ["Error extracting Blueprints zip file: " ++ msg]⟩) ∧
    (∀ msg, construct_provider (StartupOutcome.otherFailure msg) = .error msg) ∧
    (∀ docs, construct_provider (StartupOutcome.fetched docs) = .ok ⟨docs, []⟩) :=
  ⟨fun _ _ => rfl, fun _ => rfl, fun _ => rfl, fun _ => rfl⟩
